import Mathlib

/-!
Shallow embedding of `src/chatbot.py` (Rap845/Chatbot): a Telegram chatbot
that gates access by a fixed name list, fetches spreadsheet rows, queries a
generative-AI service and sanitizes the answer.  External services
(credential refresh, Sheets API call, Gemini call, history deletion) are
modelled by explicit outcome parameters; Python exceptions are modelled by
an explicit `raised` component of each result.
-/

/-- A Python exception, classified by whether it is a `googleapiclient`
`HttpError` (the only kind `get_google_sheets_data` catches) or any other
exception type (transport errors, auth errors, ...). -/
inductive PyError where
  | httpError (msg : String)
  | otherError (msg : String)
deriving DecidableEq

/-- Python whitespace for `str.strip()` and the regex class `\s`
(ASCII range). -/
def isSpace (c : Char) : Bool :=
  c = ' ' || c = '\t' || c = '\n' || c = '\r' || c = '\x0b' || c = '\x0c'

/-- The regex class `\w` (word characters): ASCII letters, digits,
underscore, and accented Latin letters (Latin-1 supplement and Latin
Extended-A, minus the two operators × ÷), which covers every character the
program's Portuguese strings use. -/
def isWordChar (c : Char) : Bool :=
  c.isAlpha || c.isDigit || c = '_' ||
    (0xC0 ≤ c.toNat && c.toNat ≤ 0x17F && c.toNat ≠ 0xD7 && c.toNat ≠ 0xF7)

/-- The character class kept by the second substitution in
`sanitize_response`: the complement of `[^\w\s,.!?%€$£-]`. -/
def whitelistChar (c : Char) : Bool :=
  isWordChar c || isSpace c || c = ',' || c = '.' || c = '!' || c = '?' ||
    c = '%' || c = '€' || c = '$' || c = '£' || c = '-'

/-- Remove trailing `isSpace` characters (right half of Python `strip()`). -/
def stripRight (l : List Char) : List Char :=
  (l.reverse.dropWhile isSpace).reverse

/-- Python `str.strip()` on the character list: drop leading and trailing
whitespace. -/
def pyStrip (l : List Char) : List Char :=
  stripRight (l.dropWhile isSpace)

/-- Python `str.strip()` on strings. -/
def pyStripStr (s : String) : String :=
  String.mk (pyStrip s.data)

/-- Python `str.lower()`; the characters this program compares are ASCII
or already lowercase, so `Char.toLower` is faithful here. -/
def pyLower (s : String) : String :=
  String.mk (s.data.map Char.toLower)

/-- `sanitize_response` (chatbot.py:51-55): delete every `*`
(`re.sub(r"\*", "", ...)`), delete every character outside the whitelist
(`re.sub(r"[^\w\s,.!?%€$£-]", "", ...)`), then `strip()`. -/
def sanitize_response (response : String) : String :=
  let r1 := response.data.filter (fun c => c != '*')
  let r2 := r1.filter whitelistChar
  String.mk (pyStrip r2)

/-- `AUTHORIZED_USERS` (chatbot.py:40): the accepted names, lowercase. -/
def AUTHORIZED_USERS : List String :=
  ["raphael", "mariana", "nilza", "matheus"]

/-- The rows of `MENU_KEYBOARD` (chatbot.py:34-37). -/
def MENU_KEYBOARD : List (List String) :=
  [["📅 Vigência do contrato 71", "🗑 Limpar histórico"]]

/-- One outbound Telegram message: its text and the optional reply keyboard
attached via `reply_markup`. -/
structure BotMsg where
  text : String
  markup : Option (List (List String))
deriving DecidableEq

/-- What `get_google_sheets_data` hands back on the non-raising path:
Python returns either the list of rows or a plain `str`; the caller
distinguishes them with `isinstance(data, str)`. -/
inductive SheetsData where
  | rows (values : List (List String))
  | msg (s : String)
deriving DecidableEq

/-- Result of calling `get_google_sheets_data`: a returned value, or a
Python exception propagating out of it. -/
inductive FetchOutcome where
  | value (v : SheetsData)
  | raised (e : PyError)
deriving DecidableEq

/-- `get_google_sheets_data` (chatbot.py:57-89).  The credential phase
(token load / refresh / interactive flow, lines 59-73) runs outside the
`try` block; `credsOutcome` is its result.  `api` is the outcome of the
Sheets `values().get(...).execute()` call inside the `try`, whose list is
already `result.get("values", [])`.  Only `HttpError` is caught (line 88)
and returned as `str(err)`; every other exception propagates.  An empty
row list returns the fixed string (line 84). -/
def get_google_sheets_data (credsOutcome : Except PyError Unit)
    (api : Except PyError (List (List String))) : FetchOutcome :=
  match credsOutcome with
  | .error e => .raised e
  | .ok _ =>
    match api with
    | .error (.httpError m) => .value (.msg m)
    | .error e => .raised e
    | .ok values =>
      if values.isEmpty then .value (.msg "Nenhum dado encontrado.")
      else .value (.rows values)

/-- JSON string literal with the escapes `json.dumps` applies to the
characters appearing in spreadsheet cells. -/
def jsonEscapeChar (c : Char) : String :=
  if c = '"' then "\\\""
  else if c = '\\' then "\\\\"
  else if c = '\n' then "\\n"
  else if c = '\t' then "\\t"
  else if c = '\r' then "\\r"
  else String.mk [c]

/-- Render one cell as a JSON string literal. -/
def jsonString (s : String) : String :=
  "\"" ++ String.join (s.data.map jsonEscapeChar) ++ "\""

/-- Join strings with a separator. -/
def joinSep (sep : String) : List String → String
  | [] => ""
  | [x] => x
  | x :: y :: xs => x ++ sep ++ joinSep sep (y :: xs)

/-- `json.dumps(data, indent=2)` for a list of rows of strings
(chatbot.py:121). -/
def json_dumps_indent2 (rowsList : List (List String)) : String :=
  if rowsList.isEmpty then "[]"
  else
    "[\n" ++
      joinSep ",\n" (rowsList.map (fun row =>
        if row.isEmpty then "  []"
        else "  [\n" ++
          joinSep ",\n" (row.map (fun cell => "    " ++ jsonString cell)) ++
          "\n  ]")) ++
      "\n]"

/-- The f-string prompt of chatbot.py:123-130, with the triple-quoted
string's own newlines and 4-space indentation. -/
def build_prompt (json_data user_text : String) : String :=
  "\n    Você é um assistente especializado em análise de dados de planilhas. \n    Aqui estão os dados da planilha em formato JSON:\n    "
    ++ json_data ++
    "\n\n    Responda à seguinte pergunta do usuário com base nesses dados:\n    "
    ++ user_text ++ "\n    "

/-- `generate_gemini_response` (chatbot.py:45-49): submit the prompt to the
model (outcome supplied by the `gem` oracle) and `strip()` the returned
text; an exception from the API call propagates. -/
def generate_gemini_response (gem : String → Except PyError String)
    (prompt : String) : Except PyError String :=
  match gem prompt with
  | .error e => .error e
  | .ok t => .ok (pyStripStr t)

/-- `USER_STATE` (chatbot.py:43): the per-chat dictionary, as a finite-
support map from chat id to stored status string. -/
abbrev UserState := Int → Option String

/-- Outcome of the history-deletion loop inside `clear_chat_history`'s
`try` block. -/
inductive ClearOutcome where
  | success
  | failure (e : String)
deriving DecidableEq

/-- `clear_chat_history` (chatbot.py:137-148): announce, delete the chat
history, then confirm with the menu; a caught exception is reported as
text.  (A failure of the very first send would skip the announcement; that
interleaving is abstracted to the announce-then-report shape.) -/
def clear_chat_history (outcome : ClearOutcome) : List BotMsg :=
  match outcome with
  | .success =>
      [⟨"🗑 Limpando histórico de conversa...", none⟩,
       ⟨"✅ Histórico limpo com sucesso!", some MENU_KEYBOARD⟩]
  | .failure e =>
      [⟨"🗑 Limpando histórico de conversa...", none⟩,
       ⟨"⚠️ Erro ao limpar histórico: " ++ e, none⟩]

/-- Observable result of one handler invocation: the `USER_STATE` after it,
the messages sent to the chat, whether the spreadsheet fetch / Gemini call /
history cleaner were invoked, and an exception leaving the handler uncaught
(if any). -/
structure HandlerResult where
  state : UserState
  replies : List BotMsg
  sheetsCalled : Bool
  geminiCalled : Bool
  clearCalled : Bool
  raised : Option PyError

/-- `handle_message` (chatbot.py:91-135).  `chat_id` and `text` come from
the update; `credsOutcome`/`api` feed the spreadsheet fetch, `gem` the
Gemini call, `clearOut` the history cleaner. -/
def handle_message (st : UserState) (chat_id : Int) (text : String)
    (credsOutcome : Except PyError Unit)
    (api : Except PyError (List (List String)))
    (gem : String → Except PyError String)
    (clearOut : ClearOutcome) : HandlerResult :=
  let user_text := pyLower (pyStripStr text)
  match st chat_id with
  | none =>
    if user_text ∈ AUTHORIZED_USERS then
      ⟨fun c => if c = chat_id then some "authorized" else st c,
       [⟨"✅ Acesso autorizado! Como posso te ajudar?", some MENU_KEYBOARD⟩],
       false, false, false, none⟩
    else
      ⟨st, [⟨"❌ Usuário não autorizado. Você não pode interagir com o bot.", none⟩],
       false, false, false, none⟩
  | some _ =>
    if user_text = "📅 vigência do contrato 71" then
      ⟨st, [⟨"📌 O contrato 71 tem vigência até 29/04/2025.", none⟩],
       false, false, false, none⟩
    else if user_text = "🗑 limpar histórico" then
      ⟨st, clear_chat_history clearOut, false, false, true, none⟩
    else
      match get_google_sheets_data credsOutcome api with
      | .raised e => ⟨st, [], true, false, false, some e⟩
      | .value (.msg s) =>
          ⟨st, [⟨"⚠️ Erro ao acessar a planilha: " ++ s, none⟩],
           true, false, false, none⟩
      | .value (.rows data) =>
          let json_data := json_dumps_indent2 data
          let prompt := build_prompt json_data user_text
          match generate_gemini_response gem prompt with
          | .error e => ⟨st, [], true, true, false, some e⟩
          | .ok resp => ⟨st, [⟨sanitize_response resp, none⟩], true, true, false, none⟩

/-- `start` (chatbot.py:150-159): `/start` pops the chat's `USER_STATE`
entry and asks for the user's name. -/
def start (st : UserState) (chat_id : Int) : HandlerResult :=
  ⟨fun c => if c = chat_id then none else st c,
   [⟨"👋 Olá! Sou um bot que analisa dados dos contratos. Antes de continuar, por favor, me diga seu nome:", none⟩],
   false, false, false, none⟩

/-- One inbound update together with the external-service outcomes its
handling observes: a non-command text message, or the `/start` command. -/
inductive BotEvent where
  | message (chat : Int) (text : String) (credsOutcome : Except PyError Unit)
      (api : Except PyError (List (List String)))
      (gem : String → Except PyError String) (clearOut : ClearOutcome)
  | startCmd (chat : Int)

/-- The chat id an event belongs to. -/
def eventChat : BotEvent → Int
  | .message chat _ _ _ _ _ => chat
  | .startCmd chat => chat

/-- The `USER_STATE` after dispatching one update. -/
def stepState (st : UserState) (e : BotEvent) : UserState :=
  match e with
  | .message chat text co api gem cl =>
      (handle_message st chat text co api gem cl).state
  | .startCmd chat => (start st chat).state

/-- `USER_STATE` after a sequence of updates, starting from the empty
dictionary the process begins with. -/
def runEvents (es : List BotEvent) : UserState :=
  List.foldl stepState (fun _ => none) es

/-! ### Lemmas about `pyStrip` and `sanitize_response` -/

theorem stripRight_sublist (l : List Char) : List.Sublist (stripRight l) l := by
  have h1 : List.Sublist (l.reverse.dropWhile isSpace) l.reverse :=
    (List.dropWhile_suffix isSpace).sublist
  have h2 := h1.reverse
  rwa [List.reverse_reverse] at h2

theorem pyStrip_sublist (l : List Char) : List.Sublist (pyStrip l) l :=
  (stripRight_sublist _).trans (List.dropWhile_suffix isSpace).sublist

theorem stripRight_idem (l : List Char) :
    stripRight (stripRight l) = stripRight l := by
  show ((stripRight l).reverse.dropWhile isSpace).reverse = stripRight l
  rw [show (stripRight l).reverse = l.reverse.dropWhile isSpace from
        List.reverse_reverse _,
      List.dropWhile_idempotent isSpace l.reverse]
  rfl

theorem dropWhile_stripRight_eq (m : List Char)
    (hm : m.dropWhile isSpace = m) :
    (stripRight m).dropWhile isSpace = stripRight m := by
  cases h : stripRight m with
  | nil => rfl
  | cons a t =>
    have hdecomp : stripRight m ++ (m.reverse.takeWhile isSpace).reverse = m := by
      have h1 : (m.reverse.takeWhile isSpace ++ m.reverse.dropWhile isSpace).reverse = m := by
        rw [List.takeWhile_append_dropWhile, List.reverse_reverse]
      rw [List.reverse_append] at h1
      exact h1
    cases hx : isSpace a with
    | false =>
      exact List.dropWhile_cons_of_neg (by simp [hx])
    | true =>
      exfalso
      rw [h, List.cons_append] at hdecomp
      obtain ⟨u, hdecomp⟩ : ∃ u, a :: (t ++ u) = m := ⟨_, hdecomp⟩
      have hdw := hm
      rw [← hdecomp, List.dropWhile_cons_of_pos hx] at hdw
      have hle : (List.dropWhile isSpace (t ++ u)).length ≤ (t ++ u).length :=
        (List.dropWhile_suffix isSpace).sublist.length_le
      have hlen : (List.dropWhile isSpace (t ++ u)).length = (t ++ u).length + 1 := by
        rw [hdw]
        rfl
      omega

theorem pyStrip_idem (l : List Char) : pyStrip (pyStrip l) = pyStrip l := by
  show stripRight ((stripRight (l.dropWhile isSpace)).dropWhile isSpace) =
    stripRight (l.dropWhile isSpace)
  rw [dropWhile_stripRight_eq (l.dropWhile isSpace)
        (List.dropWhile_idempotent isSpace l),
      stripRight_idem]

theorem filter_no_space_dropWhile (l : List Char) :
    (l.dropWhile isSpace).filter (fun c => !isSpace c) =
      l.filter (fun c => !isSpace c) := by
  conv_rhs => rw [← List.takeWhile_append_dropWhile isSpace l]
  rw [List.filter_append]
  have h0 : (l.takeWhile isSpace).filter (fun c => !isSpace c) = [] := by
    rw [List.filter_eq_nil_iff]
    intro a ha
    have hsp := List.mem_takeWhile_imp ha
    simp [hsp]
  rw [h0, List.nil_append]

theorem filter_no_space_stripRight (l : List Char) :
    (stripRight l).filter (fun c => !isSpace c) =
      l.filter (fun c => !isSpace c) := by
  show ((l.reverse.dropWhile isSpace).reverse).filter (fun c => !isSpace c) = _
  rw [List.filter_reverse, filter_no_space_dropWhile, List.filter_reverse,
    List.reverse_reverse]

theorem filter_no_space_pyStrip (l : List Char) :
    (pyStrip l).filter (fun c => !isSpace c) =
      l.filter (fun c => !isSpace c) := by
  show (stripRight (l.dropWhile isSpace)).filter (fun c => !isSpace c) = _
  rw [filter_no_space_stripRight, filter_no_space_dropWhile]

theorem sanitize_mem_whitelist (s : String) (c : Char)
    (hc : c ∈ (sanitize_response s).data) : whitelistChar c = true := by
  have h1 : c ∈ (s.data.filter (fun c => c != '*')).filter whitelistChar :=
    (pyStrip_sublist _).subset hc
  exact (List.mem_filter.mp h1).2

theorem sanitize_filters_collapse (s : String) :
    (s.data.filter (fun c => c != '*')).filter whitelistChar =
      s.data.filter whitelistChar := by
  rw [List.filter_filter]
  apply List.filter_congr
  intro a _
  by_cases ha : a = '*'
  · subst ha
    decide
  · simp [ha]

/-! ### The claims -/

/-- C3, counterexample: on the input `" a "` every character is a whitelist
character (space matches `\s`), yet the final `strip()` removes the leading
and trailing spaces, so the whitelist characters of the input do not all
appear in the output. -/
theorem sanitize_whitelist_counterexample :
    ¬ List.Sublist (" a ".data.filter whitelistChar)
      (sanitize_response " a ").data := by
  intro h
  have hle := h.length_le
  revert hle
  decide

/-- C3 (amended): for every input string, the output of `sanitize_response`
contains no `*` and no character outside the whitelist, and the
non-whitespace whitelist characters of the input appear in the output
verbatim and in their original order (the final `strip()` may drop
whitelist whitespace at the two ends). -/
theorem sanitize_whitelist (s : String) :
    (∀ c ∈ (sanitize_response s).data, whitelistChar c = true ∧ c ≠ '*') ∧
    List.Sublist (s.data.filter (fun c => whitelistChar c && !isSpace c))
      (sanitize_response s).data := by
  constructor
  · intro c hc
    have hw := sanitize_mem_whitelist s c hc
    refine ⟨hw, ?_⟩
    intro he
    rw [he] at hw
    exact absurd hw (by decide)
  · have hstep : (s.data.filter whitelistChar).filter (fun c => !isSpace c) =
        s.data.filter (fun c => whitelistChar c && !isSpace c) := by
      rw [List.filter_filter]
      apply List.filter_congr
      intro a _
      exact Bool.and_comm _ _
    have hdata : (sanitize_response s).data =
        pyStrip (s.data.filter whitelistChar) := by
      show pyStrip ((s.data.filter (fun c => c != '*')).filter whitelistChar) = _
      rw [sanitize_filters_collapse]
    rw [← hstep, hdata, ← filter_no_space_pyStrip]
    exact List.filter_sublist _

/-- Witness for C3 at the concrete input `" a*b!@ "` (output `"ab!"`). -/
theorem sanitize_whitelist_witness :
    (whitelistChar 'b' = true ∧ 'b' ≠ '*') ∧
    List.Sublist (" a*b!@ ".data.filter (fun c => whitelistChar c && !isSpace c))
      (sanitize_response " a*b!@ ").data :=
  ⟨(sanitize_whitelist " a*b!@ ").1 'b' (by decide),
   (sanitize_whitelist " a*b!@ ").2⟩

/-- C4: `sanitize_response` is idempotent. -/
theorem sanitize_idempotent (s : String) :
    sanitize_response (sanitize_response s) = sanitize_response s := by
  have hmem : ∀ c ∈ (sanitize_response s).data, whitelistChar c = true :=
    fun c hc => sanitize_mem_whitelist s c hc
  have h1 : (sanitize_response s).data.filter (fun c => c != '*') =
      (sanitize_response s).data := by
    rw [List.filter_eq_self]
    intro a ha
    have hw := hmem a ha
    have hne : a ≠ '*' := by
      intro he
      rw [he] at hw
      exact absurd hw (by decide)
    simpa using hne
  have h2 : (sanitize_response s).data.filter whitelistChar =
      (sanitize_response s).data :=
    List.filter_eq_self.mpr hmem
  show String.mk (pyStrip (((sanitize_response s).data.filter
      (fun c => c != '*')).filter whitelistChar)) = sanitize_response s
  rw [h1, h2]
  show String.mk (pyStrip (pyStrip ((s.data.filter
      (fun c => c != '*')).filter whitelistChar))) = sanitize_response s
  rw [pyStrip_idem]
  rfl

/-- C5, counterexample: an exception that is not an `HttpError` — here a
transport error raised in the credential phase, which runs outside the
`try` block — propagates out of `get_google_sheets_data` instead of being
returned as a string. -/
theorem sheets_error_counterexample :
    get_google_sheets_data
        (Except.error (PyError.otherError "TransportError: connection failed"))
        (Except.ok [["x"]]) =
      FetchOutcome.raised
        (PyError.otherError "TransportError: connection failed") := rfl

/-- C5 (amended): an `HttpError` raised by the Sheets API call is caught
and returned as its message string; any other exception — one from the
credential load/refresh phase (outside the `try`), or a non-`HttpError`
raised by the API call — propagates out of `get_google_sheets_data` as an
exception. -/
theorem sheets_error_handling (co : Except PyError Unit)
    (api : Except PyError (List (List String))) :
    (∀ m, co = Except.ok () → api = Except.error (PyError.httpError m) →
      get_google_sheets_data co api = FetchOutcome.value (SheetsData.msg m)) ∧
    (∀ e, co = Except.error e →
      get_google_sheets_data co api = FetchOutcome.raised e) ∧
    (∀ m, co = Except.ok () → api = Except.error (PyError.otherError m) →
      get_google_sheets_data co api =
        FetchOutcome.raised (PyError.otherError m)) := by
  refine ⟨?_, ?_, ?_⟩
  · intro m hco hapi
    subst hco
    subst hapi
    rfl
  · intro e hco
    subst hco
    rfl
  · intro m hco hapi
    subst hco
    subst hapi
    rfl

/-- Witness for C5's amended statement at concrete outcomes. -/
theorem sheets_error_handling_witness :
    get_google_sheets_data (Except.ok ())
        (Except.error (PyError.httpError "HttpError 404")) =
      FetchOutcome.value (SheetsData.msg "HttpError 404") :=
  (sheets_error_handling (Except.ok ())
      (Except.error (PyError.httpError "HttpError 404"))).1
    "HttpError 404" rfl rfl

/-- Behaviour of `handle_message` when the chat has no `USER_STATE` entry
(chatbot.py:97-103), shared by the proofs of the authorization claims. -/
theorem handle_unauthorized_spec (st : UserState) (chat : Int) (text : String)
    (co : Except PyError Unit) (api : Except PyError (List (List String)))
    (gem : String → Except PyError String) (cl : ClearOutcome)
    (h : st chat = none) :
    (handle_message st chat text co api gem cl).sheetsCalled = false ∧
    (handle_message st chat text co api gem cl).geminiCalled = false ∧
    (pyLower (pyStripStr text) ∈ AUTHORIZED_USERS →
      (handle_message st chat text co api gem cl).state =
        (fun c => if c = chat then some "authorized" else st c) ∧
      (handle_message st chat text co api gem cl).replies =
        [⟨"✅ Acesso autorizado! Como posso te ajudar?", some MENU_KEYBOARD⟩]) ∧
    (pyLower (pyStripStr text) ∉ AUTHORIZED_USERS →
      (handle_message st chat text co api gem cl).state = st ∧
      (handle_message st chat text co api gem cl).replies =
        [⟨"❌ Usuário não autorizado. Você não pode interagir com o bot.", none⟩]) := by
  by_cases hmem : pyLower (pyStripStr text) ∈ AUTHORIZED_USERS
  · simp only [handle_message, h]
    rw [if_pos hmem]
    exact ⟨rfl, rfl, fun _ => ⟨rfl, rfl⟩, fun hn => absurd hmem hn⟩
  · simp only [handle_message, h]
    rw [if_neg hmem]
    exact ⟨rfl, rfl, fun hy => absurd hy hmem, fun _ => ⟨rfl, rfl⟩⟩

/-- C1: for a chat with no authorization entry, a message whose stripped,
lowercased text is one of the accepted names records the chat as authorized
and replies with the fixed greeting carrying the menu keyboard; any other
text gets the rejection reply and leaves `USER_STATE` unchanged, so the
chat still has no entry. -/
theorem auth_gate_first_message (st : UserState) (chat : Int) (text : String)
    (co : Except PyError Unit) (api : Except PyError (List (List String)))
    (gem : String → Except PyError String) (cl : ClearOutcome)
    (h : st chat = none) :
    (pyLower (pyStripStr text) ∈ AUTHORIZED_USERS →
      (handle_message st chat text co api gem cl).state chat = some "authorized" ∧
      (handle_message st chat text co api gem cl).replies =
        [⟨"✅ Acesso autorizado! Como posso te ajudar?", some MENU_KEYBOARD⟩]) ∧
    (pyLower (pyStripStr text) ∉ AUTHORIZED_USERS →
      (handle_message st chat text co api gem cl).replies =
        [⟨"❌ Usuário não autorizado. Você não pode interagir com o bot.", none⟩] ∧
      (handle_message st chat text co api gem cl).state = st ∧
      (handle_message st chat text co api gem cl).state chat = none) := by
  obtain ⟨hs, hg, hy, hn⟩ := handle_unauthorized_spec st chat text co api gem cl h
  constructor
  · intro hmem
    obtain ⟨hst, hr⟩ := hy hmem
    refine ⟨?_, hr⟩
    rw [hst]
    simp
  · intro hmem
    obtain ⟨hst, hr⟩ := hn hmem
    refine ⟨hr, hst, ?_⟩
    rw [hst, h]

/-- Witness for C1: with an empty `USER_STATE`, "Raphael" (with edge
whitespace) authorizes chat 0 and gets the greeting plus menu. -/
theorem auth_gate_first_message_witness :
    (handle_message (fun _ => none) 0 " Raphael " (Except.ok ()) (Except.ok [])
        (fun _ => Except.ok "") ClearOutcome.success).state 0 = some "authorized" ∧
    (handle_message (fun _ => none) 0 " Raphael " (Except.ok ()) (Except.ok [])
        (fun _ => Except.ok "") ClearOutcome.success).replies =
      [⟨"✅ Acesso autorizado! Como posso te ajudar?", some MENU_KEYBOARD⟩] :=
  (auth_gate_first_message (fun _ => none) 0 " Raphael " (Except.ok ())
      (Except.ok []) (fun _ => Except.ok "") ClearOutcome.success rfl).1
    (by decide)

/-- C2: `/start` removes the chat's `USER_STATE` entry whatever it was, and
the chat's next non-command message is handled by the unauthorized branch:
it must re-authenticate (an accepted name re-authorizes with the greeting,
anything else is rejected), and neither the spreadsheet fetcher nor the
answer generator runs on that message. -/
theorem start_clears_authorization (st : UserState) (chat : Int)
    (text : String) (co : Except PyError Unit)
    (api : Except PyError (List (List String)))
    (gem : String → Except PyError String) (cl : ClearOutcome) :
    (start st chat).state chat = none ∧
    (handle_message (start st chat).state chat text co api gem cl).sheetsCalled
      = false ∧
    (handle_message (start st chat).state chat text co api gem cl).geminiCalled
      = false ∧
    (pyLower (pyStripStr text) ∈ AUTHORIZED_USERS →
      (handle_message (start st chat).state chat text co api gem cl).replies =
        [⟨"✅ Acesso autorizado! Como posso te ajudar?", some MENU_KEYBOARD⟩] ∧
      (handle_message (start st chat).state chat text co api gem cl).state chat
        = some "authorized") ∧
    (pyLower (pyStripStr text) ∉ AUTHORIZED_USERS →
      (handle_message (start st chat).state chat text co api gem cl).replies =
        [⟨"❌ Usuário não autorizado. Você não pode interagir com o bot.", none⟩]) := by
  have hnone : (start st chat).state chat = none := by
    show (if chat = chat then none else st chat) = none
    rw [if_pos rfl]
  obtain ⟨hs, hg, hy, hn⟩ :=
    handle_unauthorized_spec ((start st chat).state) chat text co api gem cl hnone
  refine ⟨hnone, hs, hg, ?_, ?_⟩
  · intro hmem
    obtain ⟨hst, hr⟩ := hy hmem
    refine ⟨hr, ?_⟩
    rw [hst]
    simp
  · intro hmem
    exact (hn hmem).2

/-- Witness for C2: chat 0 is authorized, `/start` clears it, and the next
message "nilza" re-authenticates. -/
theorem start_clears_authorization_witness :
    (start (fun c => if c = 0 then some "authorized" else none) 0).state 0
      = none ∧
    (handle_message
        (start (fun c => if c = 0 then some "authorized" else none) 0).state
        0 "nilza" (Except.ok ()) (Except.ok []) (fun _ => Except.ok "")
        ClearOutcome.success).replies =
      [⟨"✅ Acesso autorizado! Como posso te ajudar?", some MENU_KEYBOARD⟩] :=
  ⟨(start_clears_authorization (fun c => if c = 0 then some "authorized" else none)
      0 "nilza" (Except.ok ()) (Except.ok []) (fun _ => Except.ok "")
      ClearOutcome.success).1,
   ((start_clears_authorization (fun c => if c = 0 then some "authorized" else none)
      0 "nilza" (Except.ok ()) (Except.ok []) (fun _ => Except.ok "")
      ClearOutcome.success).2.2.2.1 (by decide)).1⟩

/-- C7: for a chat recorded as authorized, a message whose stripped,
lowercased text equals the caption "📅 vigência do contrato 71" replies
with the exact fixed contract-expiry string and returns without consulting
the spreadsheet fetcher or the answer generator, whatever their oracles
would do. -/
theorem contract_button_fixed_reply (st : UserState) (chat : Int)
    (text : String) (co : Except PyError Unit)
    (api : Except PyError (List (List String)))
    (gem : String → Except PyError String) (cl : ClearOutcome)
    (hauth : st chat = some "authorized")
    (htext : pyLower (pyStripStr text) = "📅 vigência do contrato 71") :
    (handle_message st chat text co api gem cl).replies =
      [⟨"📌 O contrato 71 tem vigência até 29/04/2025.", none⟩] ∧
    (handle_message st chat text co api gem cl).sheetsCalled = false ∧
    (handle_message st chat text co api gem cl).geminiCalled = false ∧
    (handle_message st chat text co api gem cl).state = st := by
  simp only [handle_message, hauth, htext]
  exact ⟨rfl, rfl, rfl, rfl⟩

/-- Witness for C7: the caption sent verbatim (upper-case V) on an
authorized chat, with oracles that would fail if consulted. -/
theorem contract_button_fixed_reply_witness :
    (handle_message (fun c => if c = 7 then some "authorized" else none) 7
        "📅 Vigência do contrato 71" (Except.error (PyError.otherError "down"))
        (Except.error (PyError.otherError "down"))
        (fun _ => Except.error (PyError.otherError "down"))
        ClearOutcome.success).replies =
      [⟨"📌 O contrato 71 tem vigência até 29/04/2025.", none⟩] :=
  (contract_button_fixed_reply (fun c => if c = 7 then some "authorized" else none)
      7 "📅 Vigência do contrato 71" (Except.error (PyError.otherError "down"))
      (Except.error (PyError.otherError "down"))
      (fun _ => Except.error (PyError.otherError "down"))
      ClearOutcome.success rfl (by decide)).1

/-- C6: on the default query path of an authorized chat, when the
spreadsheet fetch returns a string, the answer generator is never invoked
and the chat receives the error reply containing that string. -/
theorem sheets_failure_no_gemini (st : UserState) (chat : Int) (text : String)
    (co : Except PyError Unit) (api : Except PyError (List (List String)))
    (gem : String → Except PyError String) (cl : ClearOutcome) (s : String)
    (hauth : st chat = some "authorized")
    (h1 : pyLower (pyStripStr text) ≠ "📅 vigência do contrato 71")
    (h2 : pyLower (pyStripStr text) ≠ "🗑 limpar histórico")
    (hfetch : get_google_sheets_data co api =
      FetchOutcome.value (SheetsData.msg s)) :
    (handle_message st chat text co api gem cl).geminiCalled = false ∧
    (handle_message st chat text co api gem cl).replies =
      [⟨"⚠️ Erro ao acessar a planilha: " ++ s, none⟩] := by
  simp only [handle_message, hauth]
  rw [if_neg h1, if_neg h2]
  simp only [hfetch]
  exact ⟨by trivial, by trivial⟩

/-- Witness for C6: an authorized chat asks a question while the Sheets API
raises an `HttpError`, whose text comes back in the error reply. -/
theorem sheets_failure_no_gemini_witness :
    (handle_message (fun c => if c = 3 then some "authorized" else none) 3
        "qual o valor" (Except.ok ())
        (Except.error (PyError.httpError "HttpError 500"))
        (fun _ => Except.ok "resposta") ClearOutcome.success).geminiCalled
      = false ∧
    (handle_message (fun c => if c = 3 then some "authorized" else none) 3
        "qual o valor" (Except.ok ())
        (Except.error (PyError.httpError "HttpError 500"))
        (fun _ => Except.ok "resposta") ClearOutcome.success).replies =
      [⟨"⚠️ Erro ao acessar a planilha: " ++ "HttpError 500", none⟩] :=
  sheets_failure_no_gemini (fun c => if c = 3 then some "authorized" else none)
    3 "qual o valor" (Except.ok ())
    (Except.error (PyError.httpError "HttpError 500"))
    (fun _ => Except.ok "resposta") ClearOutcome.success "HttpError 500"
    rfl (by decide) (by decide) rfl

/-- C9: a fetch whose API call succeeds with an empty row list returns the
fixed string "Nenhum dado encontrado.", and the handler treats it exactly
like a failure: no answer generation, and the error-prefixed reply carries
that string. -/
theorem empty_sheet_treated_as_error (st : UserState) (chat : Int)
    (text : String) (gem : String → Except PyError String) (cl : ClearOutcome)
    (hauth : st chat = some "authorized")
    (h1 : pyLower (pyStripStr text) ≠ "📅 vigência do contrato 71")
    (h2 : pyLower (pyStripStr text) ≠ "🗑 limpar histórico") :
    get_google_sheets_data (Except.ok ()) (Except.ok []) =
      FetchOutcome.value (SheetsData.msg "Nenhum dado encontrado.") ∧
    (handle_message st chat text (Except.ok ()) (Except.ok []) gem cl).geminiCalled
      = false ∧
    (handle_message st chat text (Except.ok ()) (Except.ok []) gem cl).replies =
      [⟨"⚠️ Erro ao acessar a planilha: Nenhum dado encontrado.", none⟩] := by
  refine ⟨rfl, ?_⟩
  simp only [handle_message, hauth]
  rw [if_neg h1, if_neg h2]
  exact ⟨rfl, rfl⟩

/-- Witness for C9 on an authorized chat asking a question. -/
theorem empty_sheet_treated_as_error_witness :
    (handle_message (fun c => if c = 3 then some "authorized" else none) 3
        "qual o valor" (Except.ok ()) (Except.ok [])
        (fun _ => Except.ok "resposta") ClearOutcome.success).replies =
      [⟨"⚠️ Erro ao acessar a planilha: Nenhum dado encontrado.", none⟩] :=
  (empty_sheet_treated_as_error (fun c => if c = 3 then some "authorized" else none)
      3 "qual o valor" (fun _ => Except.ok "resposta") ClearOutcome.success
      rfl (by decide) (by decide)).2.2

/-- C8: on the default query path of an authorized chat with a successful
fetch, an exception from the Gemini call leaves the handler uncaught (it
appears as the handler's raised exception) and no reply at all is sent for
that update. -/
theorem gemini_failure_propagates (st : UserState) (chat : Int) (text : String)
    (co : Except PyError Unit) (api : Except PyError (List (List String)))
    (gem : String → Except PyError String) (cl : ClearOutcome)
    (rowsData : List (List String)) (e : PyError)
    (hauth : st chat = some "authorized")
    (h1 : pyLower (pyStripStr text) ≠ "📅 vigência do contrato 71")
    (h2 : pyLower (pyStripStr text) ≠ "🗑 limpar histórico")
    (hfetch : get_google_sheets_data co api =
      FetchOutcome.value (SheetsData.rows rowsData))
    (hgem : gem (build_prompt (json_dumps_indent2 rowsData)
        (pyLower (pyStripStr text))) = Except.error e) :
    (handle_message st chat text co api gem cl).raised = some e ∧
    (handle_message st chat text co api gem cl).replies = [] := by
  simp only [handle_message, hauth]
  rw [if_neg h1, if_neg h2]
  simp only [hfetch, generate_gemini_response, hgem]
  exact ⟨by trivial, by trivial⟩

/-- Witness for C8: nonempty sheet, Gemini down, nothing sent and the
exception escapes. -/
theorem gemini_failure_propagates_witness :
    (handle_message (fun c => if c = 3 then some "authorized" else none) 3
        "qual o valor" (Except.ok ()) (Except.ok [["a", "b"]])
        (fun _ => Except.error (PyError.otherError "DeadlineExceeded"))
        ClearOutcome.success).raised
      = some (PyError.otherError "DeadlineExceeded") ∧
    (handle_message (fun c => if c = 3 then some "authorized" else none) 3
        "qual o valor" (Except.ok ()) (Except.ok [["a", "b"]])
        (fun _ => Except.error (PyError.otherError "DeadlineExceeded"))
        ClearOutcome.success).replies = [] :=
  gemini_failure_propagates (fun c => if c = 3 then some "authorized" else none)
    3 "qual o valor" (Except.ok ()) (Except.ok [["a", "b"]])
    (fun _ => Except.error (PyError.otherError "DeadlineExceeded"))
    ClearOutcome.success [["a", "b"]] (PyError.otherError "DeadlineExceeded")
    rfl (by decide) (by decide) rfl rfl

/-- Every branch of `handle_message` leaves `USER_STATE` unchanged, except
the authorization branch, which writes exactly `"authorized"` for the
processed chat. -/
theorem handle_message_state_cases (st : UserState) (chat : Int)
    (text : String) (co : Except PyError Unit)
    (api : Except PyError (List (List String)))
    (gem : String → Except PyError String) (cl : ClearOutcome) :
    (handle_message st chat text co api gem cl).state = st ∨
    (handle_message st chat text co api gem cl).state =
      (fun c => if c = chat then some "authorized" else st c) := by
  simp only [handle_message]
  split
  · split
    · right
      rfl
    · left
      rfl
  · split
    · left
      rfl
    · split
      · left
        rfl
      · split
        · left
          rfl
        · left
          rfl
        · split
          · left
            rfl
          · left
            rfl

/-- A handler step touches no entry of `USER_STATE` other than its own
chat's. -/
theorem stepState_local (st : UserState) (e : BotEvent) (c : Int)
    (h : c ≠ eventChat e) : stepState st e c = st c := by
  cases e with
  | message chat text co api gem cl =>
    have hc : c ≠ chat := h
    rcases handle_message_state_cases st chat text co api gem cl with hs | hs
    · show (handle_message st chat text co api gem cl).state c = st c
      rw [hs]
    · show (handle_message st chat text co api gem cl).state c = st c
      rw [hs]
      exact if_neg hc
  | startCmd chat =>
    have hc : c ≠ chat := h
    show (start st chat).state c = st c
    exact if_neg hc

/-- A handler step keeps every stored status equal to `"authorized"`. -/
theorem stepState_values (st : UserState) (e : BotEvent)
    (hst : ∀ c, st c = none ∨ st c = some "authorized") (c : Int) :
    stepState st e c = none ∨ stepState st e c = some "authorized" := by
  cases e with
  | message chat text co api gem cl =>
    rcases handle_message_state_cases st chat text co api gem cl with hs | hs
    · show (handle_message st chat text co api gem cl).state c = none ∨
        (handle_message st chat text co api gem cl).state c = some "authorized"
      rw [hs]
      exact hst c
    · show (handle_message st chat text co api gem cl).state c = none ∨
        (handle_message st chat text co api gem cl).state c = some "authorized"
      rw [hs]
      show (if c = chat then some "authorized" else st c) = none ∨
        (if c = chat then some "authorized" else st c) = some "authorized"
      by_cases hc : c = chat
      · rw [if_pos hc]
        exact Or.inr rfl
      · rw [if_neg hc]
        exact hst c
  | startCmd chat =>
    show (start st chat).state c = none ∨
      (start st chat).state c = some "authorized"
    by_cases hc : c = chat
    · exact Or.inl (if_pos hc)
    · show (if c = chat then none else st c) = none ∨
        (if c = chat then none else st c) = some "authorized"
      rw [if_neg hc]
      exact hst c

/-- Along any run from the empty `USER_STATE`, entries only ever hold
`"authorized"`. -/
theorem runEvents_values (es : List BotEvent) (c : Int) :
    runEvents es c = none ∨ runEvents es c = some "authorized" := by
  suffices h : ∀ st : UserState,
      (∀ d, st d = none ∨ st d = some "authorized") →
      ∀ d, List.foldl stepState st es d = none ∨
        List.foldl stepState st es d = some "authorized" from
    h (fun _ => none) (fun _ => Or.inl rfl) c
  induction es with
  | nil => exact fun st hst d => hst d
  | cons e es ih =>
    intro st hst d
    exact ih (stepState st e) (fun d2 => stepState_values st e hst d2) d

/-- C10: over every sequence of handled messages and `/start` commands from
process start, every entry present in `USER_STATE` holds exactly the value
"authorized", and each handler invocation mutates at most the entry of the
chat whose update it processes. -/
theorem user_state_invariant (es : List BotEvent) (c : Int) (st : UserState)
    (e : BotEvent) (d : Int) (hd : d ≠ eventChat e) :
    (runEvents es c = none ∨ runEvents es c = some "authorized") ∧
    stepState st e d = st d :=
  ⟨runEvents_values es c, stepState_local st e d hd⟩

/-- Witness for C10: one authorizing message for chat 0, then a `/start`
for chat 5 inspected at chat 3. -/
theorem user_state_invariant_witness :
    (runEvents [BotEvent.message 0 "nilza" (Except.ok ()) (Except.ok [])
        (fun _ => Except.ok "") ClearOutcome.success] 0 = none ∨
      runEvents [BotEvent.message 0 "nilza" (Except.ok ()) (Except.ok [])
        (fun _ => Except.ok "") ClearOutcome.success] 0 = some "authorized") ∧
    stepState (fun _ => none) (BotEvent.startCmd 5) 3 =
      (fun _ => none : UserState) 3 :=
  user_state_invariant
    [BotEvent.message 0 "nilza" (Except.ok ()) (Except.ok [])
      (fun _ => Except.ok "") ClearOutcome.success]
    0 (fun _ => none) (BotEvent.startCmd 5) 3 (by decide)
